import Mathlib

/-
Verification of the adaptive attendance core of the face-recognition server
(src/face_recognition_server/main.py).

The Python source is shallowly embedded below:
pure computations become Lean functions, the mutable priority queue becomes
explicit state passing, database tables become lists of records passed in and
out, and datetimes become integers (minutes).  Floats are modelled exactly
(rationals for thresholds and elapsed times, reals where a square root is
taken by the similarity metric).
-/

namespace FaceServer

/-! ## Similarity metric (calculate_enhanced_similarity, main.py lines 248-280) -/

/-- Sum of squares of a vector, the square of the euclidean norm used by
np.linalg.norm. -/
def sumSq (v : List ℝ) : ℝ := (v.map fun x => x ^ 2).sum

/-- Sum of absolute values, the manhattan distance accumulator np.sum(np.abs(.)). -/
def sumAbs (v : List ℝ) : ℝ := (v.map fun x => |x|).sum

/-- Componentwise difference of two embedding vectors (numpy elementwise sub). -/
def vecSub (a b : List ℝ) : List ℝ := List.zipWith (fun x y => x - y) a b

/-- Dot product np.dot for equal-length embedding vectors. -/
def dotVec (a b : List ℝ) : ℝ := (List.zipWith (fun x y => x * y) a b).sum

/-- Euclidean norm np.linalg.norm. -/
noncomputable def normVec (v : List ℝ) : ℝ := Real.sqrt (sumSq v)

open Classical in
/-- calculate_enhanced_similarity (main.py 248-280): weighted combination of a
euclidean score, cosine similarity (0 when either norm is 0), and a manhattan
score, clipped by np.clip into the interval from 0 to 1. -/
noncomputable def calculate_enhanced_similarity (embedding1 embedding2 : List ℝ) : ℝ :=
  let euclidean_distance := normVec (vecSub embedding1 embedding2)
  let euclidean_score := max 0 (1 - euclidean_distance)
  let dot_product := dotVec embedding1 embedding2
  let norm_a := normVec embedding1
  let norm_b := normVec embedding2
  let cosine_similarity := if norm_a = 0 ∨ norm_b = 0 then 0 else dot_product / (norm_a * norm_b)
  let manhattan_distance := sumAbs (vecSub embedding1 embedding2)
  let manhattan_score := max 0 (1 - manhattan_distance / (embedding1.length : ℝ))
  let final_score := euclidean_score * (5 / 10) + cosine_similarity * (3 / 10) +
    manhattan_score * (2 / 10)
  min (max final_score 0) 1

/-! ## Phase configuration (AdaptiveProcessor.get_processing_config, main.py 1261-1313) -/

/-- One entry of the configs dictionary in AdaptiveProcessor.get_processing_config. -/
structure ProcessingConfig where
  model_accuracy : String
  face_threshold : ℚ
  max_processing_time : ℚ
  parallel_workers : Nat
  cache_results : Bool
  priority : Nat
deriving DecidableEq, Repr

/-- get_processing_config (main.py 1261-1313): the per-phase configuration table;
configs.get(phase, configs of the 30-60 bucket) for an unknown phase. -/
def AdaptiveProcessor.get_processing_config (phase : String) : ProcessingConfig :=
  if phase = "0-10" then
    { model_accuracy := "high", face_threshold := 3/4, max_processing_time := 3,
      parallel_workers := 4, cache_results := true, priority := 1 }
  else if phase = "10-20" then
    { model_accuracy := "high", face_threshold := 7/10, max_processing_time := 4,
      parallel_workers := 3, cache_results := true, priority := 2 }
  else if phase = "20-30" then
    { model_accuracy := "medium", face_threshold := 7/10, max_processing_time := 5,
      parallel_workers := 2, cache_results := true, priority := 3 }
  else if phase = "30-60" then
    { model_accuracy := "medium", face_threshold := 13/20, max_processing_time := 6,
      parallel_workers := 2, cache_results := false, priority := 4 }
  else if phase = "60-90" then
    { model_accuracy := "standard", face_threshold := 13/20, max_processing_time := 8,
      parallel_workers := 1, cache_results := false, priority := 5 }
  else if phase = "90+" then
    { model_accuracy := "standard", face_threshold := 3/5, max_processing_time := 10,
      parallel_workers := 1, cache_results := false, priority := 6 }
  else
    { model_accuracy := "medium", face_threshold := 13/20, max_processing_time := 6,
      parallel_workers := 2, cache_results := false, priority := 4 }

/-! ## Adaptive queue (AdaptivePriorityQueue, main.py 1373-1395) -/

/-- The dictionary put on the adaptive queue by process_adaptive_attendance
(main.py 1339-1347).  The raw image bytes are abstracted as an opaque handle,
and session_data is reduced to the class id, the only field the consumer reads. -/
structure AdaptiveItem where
  priority : Nat
  image_data : Nat
  session_id : String
  capture_time : String
  phase : String
  config : ProcessingConfig
  class_id : String
deriving DecidableEq, Repr

/-- The mutable state of AdaptivePriorityQueue: the heap entries
(priority, sequence index, item) and the monotonic sequence counter. -/
structure QueueState where
  queue : List (Nat × Nat × AdaptiveItem)
  index : Nat
deriving DecidableEq, Repr

/-- AdaptivePriorityQueue.__init__: empty heap, counter 0. -/
def AdaptivePriorityQueue.new : QueueState := { queue := [], index := 0 }

/-- AdaptivePriorityQueue.put (main.py 1379-1383): heappush of the tuple
(item priority, current counter, item), then increment the counter.  The heap
is modelled as a multiset of entries; ordering is enforced by get. -/
def AdaptivePriorityQueue.put (s : QueueState) (item : AdaptiveItem) : QueueState :=
  { queue := (item.priority, s.index, item) :: s.queue, index := s.index + 1 }

/-- Smallest entry of the heap under the lexicographic tuple order used by
heapq on (priority, index, item); sequence indices are unique so the
comparison never reaches the item. -/
def findMin : List (Nat × Nat × AdaptiveItem) → Option (Nat × Nat × AdaptiveItem)
  | [] => none
  | e :: es =>
    match findMin es with
    | none => some e
    | some m => if e.1 < m.1 ∨ (e.1 = m.1 ∧ e.2.1 ≤ m.2.1) then some e else some m

/-- AdaptivePriorityQueue.get (main.py 1385-1390): heappop the smallest
(priority, index) entry and return its item, or None when the heap is empty.
The updated queue state is returned alongside to model the mutation. -/
def AdaptivePriorityQueue.get (s : QueueState) : Option (AdaptiveItem × QueueState) :=
  match findMin s.queue with
  | none => none
  | some e => some (e.2.2, { queue := s.queue.erase e, index := s.index })

/-- Item built by the adaptive endpoint process_adaptive_attendance
(main.py 1332-1347): the phase configuration is resolved at enqueue time and
stored inside the item. -/
def enqueue_adaptive_item (image_data : Nat) (session_id capture_time phase class_id : String) :
    AdaptiveItem :=
  let config := AdaptiveProcessor.get_processing_config phase
  { priority := config.priority, image_data := image_data, session_id := session_id,
    capture_time := capture_time, phase := phase, config := config, class_id := class_id }

/-- The persist decision at the end of process_adaptive_item (main.py 1436-1443):
save when the phase is 0-10 or 10-20 or any face result was returned, otherwise
save when the phase is 20-30 or 30-60 and processing finished under the budget,
otherwise drop the result. -/
def adaptive_persist_decision (phase : String) (faces_found : Nat)
    (processing_time max_processing_time : ℚ) : Bool :=
  if phase = "0-10" ∨ phase = "10-20" ∨ 0 < faces_found then true
  else if (phase = "20-30" ∨ phase = "30-60") ∧ processing_time < max_processing_time then true
  else false

/-- Observable outcome of process_adaptive_item for one dequeued job. -/
structure AdaptiveOutcome where
  threshold_used : ℚ
  faces_found : Nat
  persisted : Bool
deriving DecidableEq, Repr

/-- process_adaptive_item (main.py 1409-1445): read the configuration stored in
the item, run face processing with the stored threshold, then apply the persist
decision.  The face-processing step process_multiple_faces_adaptive is not
defined anywhere in the repository, so it is abstracted as a function from the
image handle and threshold to the number of face results; the measured
processing time is likewise a parameter. -/
def process_adaptive_item (detect : Nat → ℚ → Nat) (processing_time : ℚ)
    (item : AdaptiveItem) : AdaptiveOutcome :=
  let config := item.config
  let faces := detect item.image_data config.face_threshold
  { threshold_used := config.face_threshold
    faces_found := faces
    persisted := adaptive_persist_decision item.phase faces processing_time
      config.max_processing_time }

/-- Fuel-bounded unfolding of the consumer loop body of process_adaptive_queue;
the loop pops until get returns None.  One unit of fuel per iteration; get
removes one entry per successful pop, so fuel equal to the queue length is
exact. -/
def drainQueue : Nat → QueueState → List AdaptiveItem
  | 0, _ => []
  | fuel + 1, s =>
    match AdaptivePriorityQueue.get s with
    | none => []
    | some (item, s2) => item :: drainQueue fuel s2

/-- process_adaptive_queue (main.py 1397-1407): pop and process items until the
first None, then stop.  Returns the items processed, in pop order. -/
def process_adaptive_queue (s : QueueState) : List AdaptiveItem :=
  drainQueue s.queue.length s

/-! ## Attendance persistence flows (main.py 504-569, 949-1015, 1086-1157) -/

/-- One row of the attendance_records table, with the fields the three
background flows insert (created_at and the json quality blob are omitted). -/
structure AttendanceRecord where
  session_id : String
  student_email : String
  student_id : String
  check_in_time : Int
  status : String
  face_match_score : ℚ
  detection_method : Option String
deriving DecidableEq, Repr

/-- One element of the detected_faces list produced by process_multiple_faces,
reduced to the fields the persistence loops read. -/
structure FaceInfo where
  student_id : String
  confidence : ℚ
  verified : Bool
deriving DecidableEq, Repr

/-- The existing-record query used by the periodic and manual flows: select
from attendance_records where session_id and student_email match. -/
def existing_record_check (records : List AttendanceRecord)
    (session_id student_email : String) : Bool :=
  records.any fun r => r.session_id == session_id && r.student_email == student_email

/-- Number of attendance records stored for a given (session, student email)
pair. -/
def count_records_for (records : List AttendanceRecord)
    (session_id student_email : String) : Nat :=
  (records.filter fun r => r.session_id == session_id && r.student_email == student_email).length

/-- Loop body of process_periodic_attendance_background (main.py 520-564) for a
single detected face: skip unverified faces, skip when the student email lookup
fails, skip when a record already exists for (session, email), otherwise insert
a record whose status compares the capture time against start plus the on-time
limit.  Datetimes are minutes as integers. -/
def periodic_record_face (records : List AttendanceRecord) (emailOf : String → Option String)
    (face : FaceInfo) (session_id : String) (start_time : Int)
    (on_time_limit_minutes : Nat) (capture_time : Int) : List AttendanceRecord :=
  if !face.verified then records
  else
    match emailOf face.student_id with
    | none => records
    | some student_email =>
      if existing_record_check records session_id student_email then records
      else
        let record_data : AttendanceRecord :=
          { session_id := session_id
            student_email := student_email
            student_id := face.student_id
            check_in_time := capture_time
            status := if capture_time ≤ start_time + (on_time_limit_minutes : Int)
              then "present" else "late"
            face_match_score := face.confidence
            detection_method := none }
        records ++ [record_data]

/-- Loop body of process_manual_attendance_background (main.py 1101-1147) for a
single detected face; identical guard and status logic to the periodic flow,
with detection_method set to manual. -/
def manual_record_face (records : List AttendanceRecord) (emailOf : String → Option String)
    (face : FaceInfo) (session_id : String) (start_time : Int)
    (on_time_limit_minutes : Nat) (capture_time : Int) : List AttendanceRecord :=
  if !face.verified then records
  else
    match emailOf face.student_id with
    | none => records
    | some student_email =>
      if existing_record_check records session_id student_email then records
      else
        let record_data : AttendanceRecord :=
          { session_id := session_id
            student_email := student_email
            student_id := face.student_id
            check_in_time := capture_time
            status := if capture_time ≤ start_time + (on_time_limit_minutes : Int)
              then "present" else "late"
            face_match_score := face.confidence
            detection_method := some "manual" }
        records ++ [record_data]

/-- Loop body of process_start_class_attendance (main.py 970-1003) for a single
detected face: skip unverified faces and failed email lookups, then insert a
record with status present unconditionally.  There is no existing-record check
in this flow. -/
def start_class_record_face (records : List AttendanceRecord) (emailOf : String → Option String)
    (face : FaceInfo) (session_id : String) (capture_time : Int) : List AttendanceRecord :=
  if !face.verified then records
  else
    match emailOf face.student_id with
    | none => records
    | some student_email =>
      let record_data : AttendanceRecord :=
        { session_id := session_id
          student_email := student_email
          student_id := face.student_id
          check_in_time := capture_time
          status := "present"
          face_match_score := face.confidence
          detection_method := some "start_class" }
      records ++ [record_data]

/-- process_periodic_attendance_background (main.py 504-569): fold the per-face
body over the detected faces. -/
def process_periodic_attendance_background (records : List AttendanceRecord)
    (emailOf : String → Option String) (detected_faces : List FaceInfo)
    (session_id : String) (start_time : Int) (on_time_limit_minutes : Nat)
    (capture_time : Int) : List AttendanceRecord :=
  detected_faces.foldl
    (fun db face =>
      periodic_record_face db emailOf face session_id start_time on_time_limit_minutes
        capture_time)
    records

/-- process_manual_attendance_background (main.py 1086-1157): fold the per-face
body over the detected faces. -/
def process_manual_attendance_background (records : List AttendanceRecord)
    (emailOf : String → Option String) (detected_faces : List FaceInfo)
    (session_id : String) (start_time : Int) (on_time_limit_minutes : Nat)
    (capture_time : Int) : List AttendanceRecord :=
  detected_faces.foldl
    (fun db face =>
      manual_record_face db emailOf face session_id start_time on_time_limit_minutes
        capture_time)
    records

/-- process_start_class_attendance (main.py 949-1015): fold the per-face body
over the detected faces.  In start_class_session the task is invoked with
capture_time equal to the session start time. -/
def process_start_class_attendance (records : List AttendanceRecord)
    (emailOf : String → Option String) (detected_faces : List FaceInfo)
    (session_id : String) (capture_time : Int) : List AttendanceRecord :=
  detected_faces.foldl
    (fun db face => start_class_record_face db emailOf face session_id capture_time)
    records

/-- Modelled from the spec: the attendance status rule of
AttendanceSessionManager, status = Present if checkInTime is at most the
on-time deadline (startTime plus onTimeLimit minutes) else Late.  Used to
compare the persisted statuses of the three flows against the specified rule. -/
def status_rule (check_in_time on_time_deadline : Int) : String :=
  if check_in_time ≤ on_time_deadline then "present" else "late"

/-! ## Embedding save (save_face_embedding_to_db, main.py 634-693) -/

/-- save_face_embedding_to_db (main.py 634-693).  The encoding is a list of
rationals (always one-dimensional, so the ndim guard is vacuous); the store
interactions are abstracted by flags: whether the users lookup finds the
student, whether the insert into student_face_embeddings raises, and whether
the insert returns data.  The except handler at line 693 executes
return Fals, an undefined name, so any exception raised inside the try block
escapes the function as a NameError; that path is modelled as Except.error. -/
def save_face_embedding_to_db (student_id student_email : String) (encoding : List ℚ)
    (quality : ℚ) (student_found insert_raises insert_returns_data : Bool) :
    Except String Bool :=
  if encoding.length = 0 then Except.ok false
  else if student_id = "" ∨ student_email = "" then Except.ok false
  else if !student_found then Except.ok false
  else if insert_raises then Except.error "NameError: name Fals is not defined"
  else if insert_returns_data then Except.ok true
  else Except.ok false

/-! ## Sample inputs used by witnesses -/

/-- A concrete job enqueued in phase 0-10 (priority rank 1). -/
def sample_item_1 : AdaptiveItem := enqueue_adaptive_item 0 "S1" "t0" "0-10" "C1"

/-- A concrete job enqueued in phase 30-60 (priority rank 4). -/
def sample_item_2 : AdaptiveItem := enqueue_adaptive_item 1 "S1" "t1" "30-60" "C1"

/-- A second concrete job in phase 0-10 (priority rank 1), enqueued after
sample_item_1. -/
def sample_item_3 : AdaptiveItem := enqueue_adaptive_item 2 "S1" "t2" "0-10" "C1"

/-- A queue state holding a single enqueued job. -/
def sample_queue_state : QueueState :=
  AdaptivePriorityQueue.put AdaptivePriorityQueue.new sample_item_1

/-- A concrete verified face match for student X1. -/
def sample_face : FaceInfo := { student_id := "X1", confidence := 1, verified := true }

/-- A user-table lookup that resolves student X1 to an email address. -/
def sample_email_lookup : String → Option String :=
  fun sid => if sid = "X1" then some "x1@example.com" else none

/-- Records after the periodic background flow has matched student X1 once for
session S1 (session start 0, on-time limit 30 minutes, capture at minute 10). -/
def sample_records_after_periodic : List AttendanceRecord :=
  process_periodic_attendance_background [] sample_email_lookup [sample_face] "S1" 0 30 10

/-! ## Theorems -/

/-- C3: for every phase bucket, the configuration returned by
AdaptiveProcessor.get_processing_config equals the spec table: phase 0-10 maps
to (priority 1, threshold 0.75, budget 3s, workers 4), 10-20 to (2, 0.70, 4s, 3),
20-30 to (3, 0.70, 5s, 2), 30-60 to (4, 0.65, 6s, 2), 60-90 to (5, 0.65, 8s, 1),
and 90+ to (6, 0.60, 10s, 1). -/
theorem get_processing_config_matches_phase_table :
    (let c := AdaptiveProcessor.get_processing_config "0-10"
     (c.priority, c.face_threshold, c.max_processing_time, c.parallel_workers)
       = (1, 3/4, 3, 4)) ∧
    (let c := AdaptiveProcessor.get_processing_config "10-20"
     (c.priority, c.face_threshold, c.max_processing_time, c.parallel_workers)
       = (2, 7/10, 4, 3)) ∧
    (let c := AdaptiveProcessor.get_processing_config "20-30"
     (c.priority, c.face_threshold, c.max_processing_time, c.parallel_workers)
       = (3, 7/10, 5, 2)) ∧
    (let c := AdaptiveProcessor.get_processing_config "30-60"
     (c.priority, c.face_threshold, c.max_processing_time, c.parallel_workers)
       = (4, 13/20, 6, 2)) ∧
    (let c := AdaptiveProcessor.get_processing_config "60-90"
     (c.priority, c.face_threshold, c.max_processing_time, c.parallel_workers)
       = (5, 13/20, 8, 1)) ∧
    (let c := AdaptiveProcessor.get_processing_config "90+"
     (c.priority, c.face_threshold, c.max_processing_time, c.parallel_workers)
       = (6, 3/5, 10, 1)) :=
  ⟨rfl, rfl, rfl, rfl, rfl, rfl⟩

/-- C9: for every phase string other than the six table keys,
get_processing_config falls back to the 30-60 configuration
(priority 4, threshold 0.65, budget 6s, workers 2). -/
theorem get_processing_config_unknown_phase_defaults (phase : String)
    (h1 : phase ≠ "0-10") (h2 : phase ≠ "10-20") (h3 : phase ≠ "20-30")
    (h4 : phase ≠ "30-60") (h5 : phase ≠ "60-90") (h6 : phase ≠ "90+") :
    AdaptiveProcessor.get_processing_config phase
      = AdaptiveProcessor.get_processing_config "30-60" ∧
    (AdaptiveProcessor.get_processing_config phase).priority = 4 ∧
    (AdaptiveProcessor.get_processing_config phase).face_threshold = 13/20 ∧
    (AdaptiveProcessor.get_processing_config phase).max_processing_time = 6 ∧
    (AdaptiveProcessor.get_processing_config phase).parallel_workers = 2 := by
  unfold AdaptiveProcessor.get_processing_config
  simp [h1, h2, h3, h4, h5, h6]

/-- Witness for C9: the empty string is not a table key and yields the 30-60
configuration. -/
theorem get_processing_config_unknown_phase_defaults_witness :
    AdaptiveProcessor.get_processing_config ""
      = AdaptiveProcessor.get_processing_config "30-60" ∧
    (AdaptiveProcessor.get_processing_config "").priority = 4 ∧
    (AdaptiveProcessor.get_processing_config "").face_threshold = 13/20 ∧
    (AdaptiveProcessor.get_processing_config "").max_processing_time = 6 ∧
    (AdaptiveProcessor.get_processing_config "").parallel_workers = 2 :=
  get_processing_config_unknown_phase_defaults "" (by decide) (by decide) (by decide)
    (by decide) (by decide) (by decide)

/-- C8: at the failing input (a database insert that raises), the function does
not return False: the except handler evaluates the undefined name Fals and a
NameError escapes the function.  The claim that no exception propagates is
contradicted by the source at line 693 (return Fals). -/
theorem save_face_embedding_insert_error_escapes :
    save_face_embedding_to_db "s1" "s1@example.com" [1] 1 true true true
      = Except.error "NameError: name Fals is not defined" := rfl

/-- C2 counterexample: a job enqueued in phase 20-30 whose processing returned
no face results and overran the 5 second budget (6 seconds) is not persisted,
while the claim says phase 20-30 results are always persisted. -/
theorem adaptive_persist_phase_20_30_not_always :
    (process_adaptive_item (fun _ _ => 0) 6
      (enqueue_adaptive_item 0 "S1" "t0" "20-30" "C1")).persisted = false := by
  decide

/-- C2 amended: processed jobs in phases 0-10 and 10-20 are always persisted;
in phases 20-30 and 30-60 a job is persisted iff some face result was returned
or processing finished within the phase budget; in phases 60-90 and 90+ a job
is persisted iff some face result was returned. -/
theorem adaptive_persist_policy_by_phase (n : Nat) (t : ℚ) :
    adaptive_persist_decision "0-10" n t
      (AdaptiveProcessor.get_processing_config "0-10").max_processing_time = true ∧
    adaptive_persist_decision "10-20" n t
      (AdaptiveProcessor.get_processing_config "10-20").max_processing_time = true ∧
    (adaptive_persist_decision "20-30" n t
      (AdaptiveProcessor.get_processing_config "20-30").max_processing_time = true
        ↔ 0 < n ∨ t < 5) ∧
    (adaptive_persist_decision "30-60" n t
      (AdaptiveProcessor.get_processing_config "30-60").max_processing_time = true
        ↔ 0 < n ∨ t < 6) ∧
    (adaptive_persist_decision "60-90" n t
      (AdaptiveProcessor.get_processing_config "60-90").max_processing_time = true
        ↔ 0 < n) ∧
    (adaptive_persist_decision "90+" n t
      (AdaptiveProcessor.get_processing_config "90+").max_processing_time = true
        ↔ 0 < n) := by
  refine ⟨?_, ?_, ?_, ?_, ?_, ?_⟩ <;>
    simp +decide [adaptive_persist_decision, AdaptiveProcessor.get_processing_config]

/-- C5: the phase configuration, including the matching threshold, is resolved
by the adaptive endpoint at enqueue time, stored inside the queued item
unchanged, and is the configuration process_adaptive_item later reads: a job
enqueued during phase 0-10 is processed with threshold 0.75, never with the
phase 90+ threshold 0.60, independently of when it is dequeued. -/
theorem adaptive_phase_fixed_at_enqueue (image_data : Nat)
    (session_id capture_time class_id : String)
    (detect : Nat → ℚ → Nat) (processing_time : ℚ) :
    (∀ phase, (enqueue_adaptive_item image_data session_id capture_time phase class_id).config
      = AdaptiveProcessor.get_processing_config phase) ∧
    (∀ s phase, (AdaptivePriorityQueue.put s
        (enqueue_adaptive_item image_data session_id capture_time phase class_id)).queue.head?
      = some ((AdaptiveProcessor.get_processing_config phase).priority, s.index,
          enqueue_adaptive_item image_data session_id capture_time phase class_id)) ∧
    (process_adaptive_item detect processing_time
        (enqueue_adaptive_item image_data session_id capture_time "0-10" class_id)).threshold_used
      = (AdaptiveProcessor.get_processing_config "0-10").face_threshold ∧
    (process_adaptive_item detect processing_time
        (enqueue_adaptive_item image_data session_id capture_time "0-10" class_id)).threshold_used
      ≠ (AdaptiveProcessor.get_processing_config "90+").face_threshold := by
  refine ⟨fun phase => rfl, fun s phase => rfl, rfl, ?_⟩
  show (3 : ℚ)/4 ≠ 3/5
  norm_num

/-- C4: the adaptive queue dequeues by (priority rank, enqueue sequence): for
two jobs with different priority ranks the lower rank is dequeued first in
either enqueue order, and for equal ranks the job enqueued first is dequeued
first. -/
theorem queue_priority_dequeue_order (j1 j2 : AdaptiveItem) :
    (j1.priority < j2.priority →
      (AdaptivePriorityQueue.get
        (AdaptivePriorityQueue.put (AdaptivePriorityQueue.put AdaptivePriorityQueue.new j1)
          j2)).map Prod.fst = some j1 ∧
      (AdaptivePriorityQueue.get
        (AdaptivePriorityQueue.put (AdaptivePriorityQueue.put AdaptivePriorityQueue.new j2)
          j1)).map Prod.fst = some j1) ∧
    (j1.priority = j2.priority →
      (AdaptivePriorityQueue.get
        (AdaptivePriorityQueue.put (AdaptivePriorityQueue.put AdaptivePriorityQueue.new j1)
          j2)).map Prod.fst = some j1) := by
  constructor
  · intro h
    constructor
    · simp only [AdaptivePriorityQueue.new, AdaptivePriorityQueue.put,
        AdaptivePriorityQueue.get, findMin]
      rw [if_neg (by omega)]
      rfl
    · simp only [AdaptivePriorityQueue.new, AdaptivePriorityQueue.put,
        AdaptivePriorityQueue.get, findMin]
      rw [if_pos (by omega)]
      rfl
  · intro h
    simp only [AdaptivePriorityQueue.new, AdaptivePriorityQueue.put,
      AdaptivePriorityQueue.get, findMin]
    rw [if_neg (by omega)]
    rfl

/-- Witness for C4: with concrete jobs of ranks 1 and 4 the rank 1 job is
dequeued first in both enqueue orders, and between two rank 1 jobs the earlier
one is dequeued first. -/
theorem queue_priority_dequeue_order_witness :
    (sample_item_1.priority < sample_item_2.priority) ∧
    ((AdaptivePriorityQueue.get
        (AdaptivePriorityQueue.put (AdaptivePriorityQueue.put AdaptivePriorityQueue.new
          sample_item_1) sample_item_2)).map Prod.fst = some sample_item_1 ∧
      (AdaptivePriorityQueue.get
        (AdaptivePriorityQueue.put (AdaptivePriorityQueue.put AdaptivePriorityQueue.new
          sample_item_2) sample_item_1)).map Prod.fst = some sample_item_1) ∧
    (sample_item_1.priority = sample_item_3.priority) ∧
    (AdaptivePriorityQueue.get
      (AdaptivePriorityQueue.put (AdaptivePriorityQueue.put AdaptivePriorityQueue.new
        sample_item_1) sample_item_3)).map Prod.fst = some sample_item_1 :=
  ⟨by decide,
    (queue_priority_dequeue_order sample_item_1 sample_item_2).1 (by decide),
    by decide,
    (queue_priority_dequeue_order sample_item_1 sample_item_3).2 (by decide)⟩

/-- The entry returned by findMin is an element of the heap list. -/
lemma findMin_mem : ∀ {l : List (Nat × Nat × AdaptiveItem)} {e},
    findMin l = some e → e ∈ l := by
  intro l
  induction l with
  | nil => intro e h; simp [findMin] at h
  | cons x xs ih =>
    intro e h
    simp only [findMin] at h
    cases hm : findMin xs with
    | none =>
      rw [hm] at h
      simp only [Option.some.injEq] at h
      rw [← h]
      exact List.mem_cons_self x xs
    | some m =>
      rw [hm] at h
      dsimp only at h
      split_ifs at h <;> simp only [Option.some.injEq] at h
      · rw [← h]; exact List.mem_cons_self x xs
      · rw [← h]; exact List.mem_cons_of_mem x (ih hm)

/-- Inversion of a successful AdaptivePriorityQueue.get. -/
lemma get_eq_some {s : QueueState} {item : AdaptiveItem} {s2 : QueueState}
    (h : AdaptivePriorityQueue.get s = some (item, s2)) :
    ∃ e, findMin s.queue = some e ∧ item = e.2.2 ∧ s2.queue = s.queue.erase e := by
  unfold AdaptivePriorityQueue.get at h
  cases hm : findMin s.queue with
  | none => rw [hm] at h; simp at h
  | some e =>
    rw [hm] at h
    simp only [Option.some.injEq, Prod.mk.injEq] at h
    exact ⟨e, rfl, h.1.symm, by rw [← h.2]⟩

/-- Every item returned by the fuel-bounded consumer loop was an entry of the
starting queue. -/
lemma mem_drainQueue : ∀ (fuel : Nat) (s : QueueState) (j : AdaptiveItem),
    j ∈ drainQueue fuel s → ∃ p i, (p, i, j) ∈ s.queue := by
  intro fuel
  induction fuel with
  | zero => intro s j h; simp [drainQueue] at h
  | succ n ih =>
    intro s j h
    simp only [drainQueue] at h
    cases hg : AdaptivePriorityQueue.get s with
    | none => rw [hg] at h; simp at h
    | some pair =>
      obtain ⟨item, s2⟩ := pair
      rw [hg] at h
      simp only [List.mem_cons] at h
      obtain ⟨e, hfm, hitem, hq⟩ := get_eq_some hg
      rcases h with h | h
      · refine ⟨e.1, e.2.1, ?_⟩
        rw [h, hitem]
        exact findMin_mem hfm
      · obtain ⟨p, i, hp⟩ := ih s2 j h
        rw [hq] at hp
        exact ⟨p, i, List.mem_of_mem_erase hp⟩

/-- C10: AdaptivePriorityQueue.get on an empty queue returns None instead of
blocking, the consumer loop process_adaptive_queue run on a drained queue
processes nothing (it stops at the first None), and every item the consumer
processes was already in the queue when the consumer started, so a job
enqueued afterwards is only processed by a later consumer run. -/
theorem queue_empty_get_none_and_consumer_stops :
    (∀ i : Nat, AdaptivePriorityQueue.get { queue := [], index := i } = none) ∧
    (∀ i : Nat, process_adaptive_queue { queue := [], index := i } = []) ∧
    (∀ (s : QueueState) (j : AdaptiveItem), j ∈ process_adaptive_queue s →
      ∃ p i, (p, i, j) ∈ s.queue) :=
  ⟨fun _ => rfl, fun _ => rfl, fun s j h => mem_drainQueue s.queue.length s j h⟩

/-- Witness for C10: the consumer run on a one-job queue processes that job,
and that job was an entry of the queue at consumer start. -/
theorem queue_empty_get_none_and_consumer_stops_witness :
    sample_item_1 ∈ process_adaptive_queue sample_queue_state ∧
    ∃ p i, (p, i, sample_item_1) ∈ sample_queue_state.queue :=
  ⟨List.mem_cons_self sample_item_1 [],
    queue_empty_get_none_and_consumer_stops.2.2 sample_queue_state sample_item_1
      (List.mem_cons_self sample_item_1 [])⟩

/-- C1 counterexample: the start-of-class background flow does not check for an
existing record before inserting.  Starting from a store where the periodic
flow has already recorded student X1 for session S1, the start-of-class flow
inserts a second record for the same (session, student) pair, so the claimed
universal check-then-skip discipline does not hold for every flow. -/
theorem start_class_flow_creates_duplicate_record :
    count_records_for
      (process_start_class_attendance sample_records_after_periodic sample_email_lookup
        [sample_face] "S1" 0)
      "S1" "x1@example.com" = 2 := by
  decide

/-- Splitting count_records_for over an append. -/
lemma count_records_for_append (l1 l2 : List AttendanceRecord) (s e : String) :
    count_records_for (l1 ++ l2) s e = count_records_for l1 s e + count_records_for l2 s e := by
  simp [count_records_for, List.filter_append]

/-- A negative existing-record check means no record is stored for the pair. -/
lemma count_records_for_of_check_false {records : List AttendanceRecord}
    {session_id student_email : String}
    (h : existing_record_check records session_id student_email = false) :
    count_records_for records session_id student_email = 0 := by
  unfold existing_record_check at h
  unfold count_records_for
  rw [List.length_eq_zero]
  rw [List.filter_eq_nil_iff]
  intro a ha
  rw [List.any_eq_false] at h
  exact fun hc => h a ha hc

/-- The periodic per-face body preserves the at-most-one-record invariant for
every (session, email) pair. -/
lemma periodic_record_face_preserves (records : List AttendanceRecord)
    (emailOf : String → Option String) (face : FaceInfo) (sid : String) (st : Int)
    (lim : Nat) (ct : Int) (s e : String)
    (h : count_records_for records s e ≤ 1) :
    count_records_for (periodic_record_face records emailOf face sid st lim ct) s e ≤ 1 := by
  unfold periodic_record_face
  split
  · exact h
  · split
    · exact h
    · rename_i email heq
      split
      · exact h
      · rename_i hexist
        rw [count_records_for_append]
        by_cases hm : (sid == s && email == e) = true
        · simp only [Bool.and_eq_true, beq_iff_eq] at hm
          obtain ⟨hs, he⟩ := hm
          have h0 : count_records_for records sid email = 0 :=
            count_records_for_of_check_false (Bool.eq_false_iff.mpr hexist)
          rw [hs, he] at h0
          rw [h0]
          simp [count_records_for, List.filter, hs, he]
        · have h1 : count_records_for
              [{ session_id := sid, student_email := email, student_id := face.student_id,
                 check_in_time := ct,
                 status := if ct ≤ st + (lim : Int) then "present" else "late",
                 face_match_score := face.confidence, detection_method := none }] s e = 0 := by
            simp only [count_records_for, List.filter]
            simp only [Bool.and_eq_true, beq_iff_eq] at hm ⊢
            split
            · rename_i hc
              simp only [Bool.and_eq_true, beq_iff_eq] at hc
              exact absurd hc hm
            · rfl
          rw [h1]
          omega

/-- The manual per-face body preserves the at-most-one-record invariant for
every (session, email) pair. -/
lemma manual_record_face_preserves (records : List AttendanceRecord)
    (emailOf : String → Option String) (face : FaceInfo) (sid : String) (st : Int)
    (lim : Nat) (ct : Int) (s e : String)
    (h : count_records_for records s e ≤ 1) :
    count_records_for (manual_record_face records emailOf face sid st lim ct) s e ≤ 1 := by
  unfold manual_record_face
  split
  · exact h
  · split
    · exact h
    · rename_i email heq
      split
      · exact h
      · rename_i hexist
        rw [count_records_for_append]
        by_cases hm : (sid == s && email == e) = true
        · simp only [Bool.and_eq_true, beq_iff_eq] at hm
          obtain ⟨hs, he⟩ := hm
          have h0 : count_records_for records sid email = 0 :=
            count_records_for_of_check_false (Bool.eq_false_iff.mpr hexist)
          rw [hs, he] at h0
          rw [h0]
          simp [count_records_for, List.filter, hs, he]
        · have h1 : count_records_for
              [{ session_id := sid, student_email := email, student_id := face.student_id,
                 check_in_time := ct,
                 status := if ct ≤ st + (lim : Int) then "present" else "late",
                 face_match_score := face.confidence, detection_method := some "manual" }] s e
                = 0 := by
            simp only [count_records_for, List.filter]
            simp only [Bool.and_eq_true, beq_iff_eq] at hm ⊢
            split
            · rename_i hc
              simp only [Bool.and_eq_true, beq_iff_eq] at hc
              exact absurd hc hm
            · rfl
          rw [h1]
          omega

/-- C1 amended: the periodic and manual background flows first check for an
existing record for (session, student email) and skip insertion if one exists,
so each of them preserves the at-most-one-record invariant for every pair; the
start-of-class background flow inserts without any such check and can create a
duplicate (see the counterexample). -/
theorem periodic_and_manual_flows_preserve_uniqueness
    (records : List AttendanceRecord) (emailOf : String → Option String)
    (detected_faces : List FaceInfo) (sid : String) (st : Int) (lim : Nat) (ct : Int)
    (s e : String) (h : count_records_for records s e ≤ 1) :
    count_records_for
      (process_periodic_attendance_background records emailOf detected_faces sid st lim ct)
      s e ≤ 1 ∧
    count_records_for
      (process_manual_attendance_background records emailOf detected_faces sid st lim ct)
      s e ≤ 1 := by
  constructor
  · unfold process_periodic_attendance_background
    induction detected_faces generalizing records with
    | nil => exact h
    | cons f fs ih =>
      simp only [List.foldl_cons]
      exact ih _ (periodic_record_face_preserves records emailOf f sid st lim ct s e h)
  · unfold process_manual_attendance_background
    induction detected_faces generalizing records with
    | nil => exact h
    | cons f fs ih =>
      simp only [List.foldl_cons]
      exact ih _ (manual_record_face_preserves records emailOf f sid st lim ct s e h)

/-- Witness for C1 amended: re-running the periodic and the manual flow on a
store that already holds the record for (S1, X1) leaves at most one record. -/
theorem periodic_and_manual_flows_preserve_uniqueness_witness :
    count_records_for sample_records_after_periodic "S1" "x1@example.com" ≤ 1 ∧
    count_records_for
      (process_periodic_attendance_background sample_records_after_periodic
        sample_email_lookup [sample_face] "S1" 0 30 20)
      "S1" "x1@example.com" ≤ 1 ∧
    count_records_for
      (process_manual_attendance_background sample_records_after_periodic
        sample_email_lookup [sample_face] "S1" 0 30 20)
      "S1" "x1@example.com" ≤ 1 := by
  refine ⟨by decide, ?_, ?_⟩
  · exact (periodic_and_manual_flows_preserve_uniqueness sample_records_after_periodic
      sample_email_lookup [sample_face] "S1" 0 30 20 "S1" "x1@example.com" (by decide)).1
  · exact (periodic_and_manual_flows_preserve_uniqueness sample_records_after_periodic
      sample_email_lookup [sample_face] "S1" 0 30 20 "S1" "x1@example.com" (by decide)).2

/-- C7: every record appended by an attendance-persisting flow carries status
present exactly when its check-in time is at most the on-time deadline
(start plus on-time limit) and late otherwise; for the start-of-class flow the
check-in time is the session start time (the wiring in start_class_session),
so its unconditional present status agrees with the rule. -/
theorem flow_status_matches_deadline_rule (records : List AttendanceRecord)
    (emailOf : String → Option String) (face : FaceInfo) (sid : String) (st : Int)
    (lim : Nat) (ct : Int) :
    (∀ r ∈ (periodic_record_face records emailOf face sid st lim ct).drop records.length,
      r.status = status_rule r.check_in_time (st + (lim : Int))) ∧
    (∀ r ∈ (manual_record_face records emailOf face sid st lim ct).drop records.length,
      r.status = status_rule r.check_in_time (st + (lim : Int))) ∧
    (∀ r ∈ (start_class_record_face records emailOf face sid st).drop records.length,
      r.status = status_rule r.check_in_time (st + (lim : Int))) := by
  refine ⟨?_, ?_, ?_⟩
  · unfold periodic_record_face
    split
    · simp [List.drop_length]
    · split
      · simp [List.drop_length]
      · split
        · simp [List.drop_length]
        · rw [List.drop_left]
          intro r hr
          simp only [List.mem_singleton] at hr
          rw [hr]
          rfl
  · unfold manual_record_face
    split
    · simp [List.drop_length]
    · split
      · simp [List.drop_length]
      · split
        · simp [List.drop_length]
        · rw [List.drop_left]
          intro r hr
          simp only [List.mem_singleton] at hr
          rw [hr]
          rfl
  · unfold start_class_record_face
    split
    · simp [List.drop_length]
    · split
      · simp [List.drop_length]
      · rw [List.drop_left]
        intro r hr
        simp only [List.mem_singleton] at hr
        rw [hr]
        show "present" = status_rule st (st + (lim : Int))
        unfold status_rule
        rw [if_pos (by omega)]

/-- Witness for C7: a periodic capture at minute 10 of a session starting at 0
with a 30 minute on-time limit yields a record whose status agrees with the
deadline rule, and likewise for the start-of-class record at the start time. -/
theorem flow_status_matches_deadline_rule_witness :
    ({ session_id := "S1", student_email := "x1@example.com", student_id := "X1",
       check_in_time := 10, status := "present", face_match_score := 1,
       detection_method := none } : AttendanceRecord).status
      = status_rule 10 (0 + ((30 : Nat) : Int)) ∧
    ({ session_id := "S1", student_email := "x1@example.com", student_id := "X1",
       check_in_time := 0, status := "present", face_match_score := 1,
       detection_method := some "start_class" } : AttendanceRecord).status
      = status_rule 0 (0 + ((30 : Nat) : Int)) :=
  ⟨(flow_status_matches_deadline_rule [] sample_email_lookup sample_face "S1" 0 30 10).1
      _ (by decide),
    (flow_status_matches_deadline_rule [] sample_email_lookup sample_face "S1" 0 30 10).2.2
      _ (by decide)⟩

/-- Subtracting an embedding from itself gives the zero vector. -/
lemma vecSub_self (e : List ℝ) : vecSub e e = List.replicate e.length 0 := by
  induction e with
  | nil => rfl
  | cons x xs ih =>
    simp only [vecSub, List.zipWith_cons_cons, List.length_cons, List.replicate_succ,
      sub_self, List.cons.injEq]
    exact ⟨trivial, ih⟩

/-- A sum of squares is nonnegative. -/
lemma sumSq_nonneg (v : List ℝ) : 0 ≤ sumSq v := by
  unfold sumSq
  apply List.sum_nonneg
  intro x hx
  obtain ⟨y, _, rfl⟩ := List.mem_map.mp hx
  exact sq_nonneg y

/-- The sum of squares of the zero vector is zero. -/
lemma sumSq_replicate_zero (n : Nat) : sumSq (List.replicate n 0) = 0 := by
  simp [sumSq, List.map_replicate, List.sum_replicate]

/-- The sum of absolute values of the zero vector is zero. -/
lemma sumAbs_replicate_zero (n : Nat) : sumAbs (List.replicate n 0) = 0 := by
  simp [sumAbs, List.map_replicate, List.sum_replicate]

/-- The dot product of an embedding with itself is its sum of squares. -/
lemma dotVec_self (e : List ℝ) : dotVec e e = sumSq e := by
  induction e with
  | nil => rfl
  | cons x xs ih =>
    simp only [dotVec, sumSq, List.zipWith_cons_cons, List.map_cons, List.sum_cons] at *
    rw [ih, sq]

/-- C6 counterexample: for the zero embedding the self-similarity returned by
calculate_enhanced_similarity is 0.7 (the cosine term is zeroed because the
norm is zero), not 1.0, refuting the claim for that input. -/
theorem similarity_zero_vector_self_not_one :
    calculate_enhanced_similarity [0] [0] = 7/10 ∧ (7/10 : ℝ) ≠ 1 := by
  constructor
  · simp only [calculate_enhanced_similarity, vecSub, dotVec, sumAbs, normVec, sumSq,
      List.zipWith_cons_cons, List.zipWith_nil_right, List.map_cons, List.map_nil,
      List.sum_cons, List.sum_nil, List.length_cons, List.length_nil, sub_self]
    norm_num [Real.sqrt_zero]
  · norm_num

/-- C6 amended: self-similarity is exactly 1 for every embedding with nonzero
norm (for the zero embedding it is 0.7, see the counterexample), and for all
pairs of embeddings the returned similarity lies between 0 and 1. -/
theorem similarity_self_one_and_range :
    (∀ e : List ℝ, sumSq e ≠ 0 → calculate_enhanced_similarity e e = 1) ∧
    (∀ a b : List ℝ, 0 ≤ calculate_enhanced_similarity a b ∧
      calculate_enhanced_similarity a b ≤ 1) := by
  constructor
  · intro e hS
    have hnn : 0 ≤ sumSq e := sumSq_nonneg e
    have hpos : 0 < sumSq e := lt_of_le_of_ne hnn (Ne.symm hS)
    have hsqrt : Real.sqrt (sumSq e) ≠ 0 := by
      rw [Real.sqrt_ne_zero']
      exact hpos
    simp only [calculate_enhanced_similarity, vecSub_self, dotVec_self, normVec,
      sumSq_replicate_zero, sumAbs_replicate_zero, Real.sqrt_zero]
    rw [if_neg (by simp [hsqrt])]
    rw [Real.mul_self_sqrt hnn, div_self hS]
    norm_num
  · intro a b
    exact ⟨le_min (le_max_right _ _) zero_le_one, min_le_right _ _⟩

/-- Witness for C6 amended: the one-dimensional embedding with entry 1 has
nonzero sum of squares and self-similarity exactly 1. -/
theorem similarity_self_one_witness :
    calculate_enhanced_similarity [1] [1] = 1 :=
  similarity_self_one_and_range.1 [1] (by norm_num [sumSq])

end FaceServer
